import Mathlib

/-!
A shallow embedding of `cloudflare-workers-kv-sdk-rs` (src/lib.rs), a client
library for the Cloudflare Workers KV REST API, together with proofs about its
envelope parsing, pagination, error classification and write-request builder.

Modelling conventions:
* `serde_json::Value` is modelled by the inductive `Json`; numbers are modelled
  as integers (no claim depends on floating point payloads).
* The HTTP transport is modelled by `HttpResponse`: the status code, the raw
  body text, and the result of parsing the body as JSON (`none` when the body
  is not valid JSON, which is where `resp.json::<Value>().await?` fails).
* Every operation in the source is split into a pure request builder
  (`..._request`, returning the `HttpRequest` the code issues) and a pure
  response handler (`..._response`, classifying an `HttpResponse`), because the
  code between `send()` and the final `Ok`/`Err` is pure in the response.
* All errors in the source are `Box<dyn Error>` built from strings via
  `convert_string_to_error`.  The inductive `KvError` records, per production
  site, the classification the specification assigns to that site
  (transport / protocol / remote rejection / not-found), plus `panicked` for
  the `Option::unwrap` calls in `list_namespaces` that abort instead of
  returning an error.  The carried string is exactly the string the source
  passes to `convert_string_to_error` (for `panicked`, the unwrap site).
* Log statements (`warn!`, `log::error!`) have no effect on control flow or
  results and are not modelled.
-/

/-- Model of `serde_json::Value`.  Objects are association lists in the map's
iteration order; the serde parser yields sorted, duplicate-free keys, but no
proof below depends on that. -/
inductive Json where
  | null : Json
  | bool : Bool → Json
  | num : Int → Json
  | str : String → Json
  | arr : List Json → Json
  | obj : List (String × Json) → Json

namespace Json

/-- Lookup of the first binding of a key in an object's field list (the map
holds at most one binding per key after parsing). -/
def getField : List (String × Json) → String → Option Json
  | [], _ => none
  | (k, v) :: rest, key => if k = key then some v else getField rest key

/-- Model of `Value::get(key)`: field lookup on objects, `None` on any other variant. -/
def get : Json → String → Option Json
  | obj fields, key => getField fields key
  | _, _ => none

/-- Model of `Value::index` (the `value[key]` form): like `get` but yielding `Null`
when the key is absent or the value is not an object. -/
def index (j : Json) (key : String) : Json :=
  match j.get key with
  | some v => v
  | none => Json.null

/-- Model of `Value::as_bool`. -/
def asBool : Json → Option Bool
  | bool b => some b
  | _ => none

/-- Model of `Value::as_str`. -/
def asStr : Json → Option String
  | str s => some s
  | _ => none

/-- Model of `Value::as_array`. -/
def asArray : Json → Option (List Json)
  | arr xs => some xs
  | _ => none

/-- Model of `Value::as_u64`: defined exactly on non-negative integers in this model. -/
def asU64 : Json → Option Nat
  | num n => if 0 ≤ n then some n.toNat else none
  | _ => none

/-- JSON string escaping as in serde's compact serializer: `"` and `\` get a
backslash, common control characters use their short forms, remaining control
characters use `\u00XX`. -/
def escapeChar (c : Char) : String :=
  if c = '"' then "\\\""
  else if c = '\\' then "\\\\"
  else if c = '\n' then "\\n"
  else if c = '\r' then "\\r"
  else if c = '\t' then "\\t"
  else if c.toNat < 32 then
    let hex := Nat.toDigits 16 c.toNat
    let hex := if hex.length < 2 then '0' :: hex else hex
    "\\u00" ++ String.mk hex
  else String.mk [c]

/-- Serialize a string literal with quotes and escaping. -/
def quoteString (s : String) : String :=
  "\"" ++ String.join (s.toList.map escapeChar) ++ "\""

mutual

/-- Model of `Value::to_string()`: the compact (no whitespace) serialization. -/
def toString : Json → String
  | null => "null"
  | bool true => "true"
  | bool false => "false"
  | num n => ToString.toString n
  | str s => quoteString s
  | arr xs => "[" ++ toStringArr xs ++ "]"
  | obj fs => "\x7b" ++ toStringObj fs ++ "\x7d"

def toStringArr : List Json → String
  | [] => ""
  | [x] => toString x
  | x :: xs => toString x ++ "," ++ toStringArr xs

def toStringObj : List (String × Json) → String
  | [] => ""
  | [(k, v)] => quoteString k ++ ":" ++ toString v
  | (k, v) :: fs => quoteString k ++ ":" ++ toString v ++ "," ++ toStringObj fs

end

end Json

/-- Classification of the error values the client produces.  The source
represents every error as a boxed string error; each constructor corresponds
to a family of `convert_string_to_error` call sites (or, for `panicked`, to an
`unwrap` that aborts the program). -/
inductive KvError where
  /-- Case where `resp.json::<Value>().await?` failed: body is not valid JSON. -/
  | transport : String → KvError
  /-- Well-formed JSON violating the expected envelope shape. -/
  | protocol : String → KvError
  /-- Envelope parsed with `success = false`; carries the stringified envelope. -/
  | remoteRejection : String → KvError
  /-- Case where `get` saw HTTP 404; carries the stringified response body. -/
  | notFound : String → KvError
  /-- An `Option::unwrap()` on `None`: the call aborts with a panic. -/
  | panicked : String → KvError
deriving Repr, DecidableEq

/-- An HTTP response as seen by the pure part of each operation: the status
code, the raw body text, and the body parsed as JSON (`none` when the body is
not valid JSON, the case where `resp.json::<Value>()` errors). -/
structure HttpResponse where
  status : Nat
  bodyText : String
  bodyJson : Option Json

/-- An HTTP request as built by the client: method, URL and optional JSON
body. -/
structure HttpRequest where
  method : String
  url : String
  body : Option Json

/-- Model of `resp.json::<Value>().await?`: yields the parsed body or a transport
error. -/
def respToJson (resp : HttpResponse) : Except KvError Json :=
  match resp.bodyJson with
  | some j => Except.ok j
  | none => Except.error (KvError.transport "error decoding response body")

/-- Model of `check_success` (lib.rs:14-29): `Ok true` / `Ok false` when the `success`
field is a boolean, and a protocol error when it is absent or non-boolean. -/
def check_success (resp_json : Json) : Except KvError Bool :=
  match resp_json.get "success" with
  | some success =>
    match success.asBool with
    | some true => Except.ok true
    | some false => Except.ok false
    | none => Except.error (KvError.protocol
        "The returned 'success' field is not a boolean value.")
  | none => Except.error (KvError.protocol
      "The returned JSON does not contain the 'success' field.")

/-- Model of `KvRequest` (lib.rs:547-555): the serializable write descriptor. -/
structure KvRequest where
  key : String
  value : String
  base64 : Bool
  expiration : Option Nat
  expiration_ttl : Option Nat
  metadata : Option Json

namespace KvRequest

/-- Model of `KvRequest::new` (lib.rs:558-567). -/
def new (key : String) (value : String) : KvRequest :=
  { key := key
    value := value
    base64 := false
    expiration := none
    expiration_ttl := none
    metadata := none }

/-- Model of `KvRequest::enable_base64` (lib.rs:569-578). -/
def enable_base64 (self : KvRequest) : KvRequest :=
  { base64 := true
    key := self.key
    value := self.value
    expiration := self.expiration
    expiration_ttl := self.expiration_ttl
    metadata := self.metadata }

/-- Model of `KvRequest::ttl_sec` (lib.rs:580-589). -/
def ttl_sec (self : KvRequest) (n : Nat) : KvRequest :=
  { base64 := self.base64
    key := self.key
    value := self.value
    expiration := self.expiration
    expiration_ttl := some n
    metadata := self.metadata }

/-- Model of `KvRequest::ttl_timestemp` (lib.rs:591-600). -/
def ttl_timestemp (self : KvRequest) (t : Nat) : KvRequest :=
  { base64 := self.base64
    key := self.key
    value := self.value
    expiration := some t
    expiration_ttl := self.expiration_ttl
    metadata := self.metadata }

/-- Model of `KvRequest::metadata` (lib.rs:602-611). -/
def set_metadata (self : KvRequest) (m : Json) : KvRequest :=
  { base64 := self.base64
    key := self.key
    value := self.value
    expiration := self.expiration
    expiration_ttl := self.expiration_ttl
    metadata := some m }

/-- The `#[derive(Serialize)]` serialization of a `KvRequest`: fields in
declaration order, `Option` fields serialized as `null` when `None` (no
`skip_serializing_if` attributes are present in the source). -/
def toJson (r : KvRequest) : Json :=
  Json.obj
    [ ("key", Json.str r.key)
    , ("value", Json.str r.value)
    , ("base64", Json.bool r.base64)
    , ("expiration", match r.expiration with
        | some n => Json.num n
        | none => Json.null)
    , ("expiration_ttl", match r.expiration_ttl with
        | some n => Json.num n
        | none => Json.null)
    , ("metadata", match r.metadata with
        | some m => m
        | none => Json.null) ]

end KvRequest

/-! ## Clients and operations

Each source operation `op` is split into `op_request` (the `HttpRequest` the
code builds and sends) and `op_response` (the pure classification of the
`HttpResponse` into the returned value or error).  The `warn!` on a non-2xx
status (present in every operation) only logs and never alters control flow,
so it does not appear in the response handlers; no handler except `get`'s
reads the status code at all. -/

def CF_API_URL : String := "https://api.cloudflare.com/client/v4/"

/-- The two headers attached to every request (lib.rs:48-57, 203-212). -/
def defaultHeaders (api_key : String) : List (String × String) :=
  [ ("Authorization", "Bearer " ++ api_key)
  , ("Content-Type", "application/json") ]

/-- Model of `KvClient` (lib.rs:31-38): account-scoped client state. -/
structure KvClient where
  account_id : String
  api_key : String
  url : String
  header_map : List (String × String)

/-- Model of `Namespace` (lib.rs:40-44). -/
structure KvNamespace where
  id : String
  title : String

/-- Model of `KvClient::new` (lib.rs:47-72). -/
def KvClient.new (account_id : String) (api_key : String) : KvClient :=
  { account_id := account_id
    api_key := api_key
    url := CF_API_URL ++ "accounts/" ++ account_id ++ "/storage/kv/namespaces"
    header_map := defaultHeaders api_key }

/-- Model of `KvNamespaceClient` (lib.rs:191-199): namespace-scoped client state. -/
structure KvNamespaceClient where
  account_id : String
  api_key : String
  namespace_id : String
  url : String
  header_map : List (String × String)

/-- Model of `KvNamespaceClient::new` (lib.rs:202-228). -/
def KvNamespaceClient.new (account_id : String) (api_key : String)
    (namespace_id : String) : KvNamespaceClient :=
  { account_id := account_id
    api_key := api_key
    namespace_id := namespace_id
    url := CF_API_URL ++ "accounts/" ++ account_id ++ "/storage/kv/namespaces/"
        ++ namespace_id
    header_map := defaultHeaders api_key }

/-- Model of `KvNamespaceClient::from_kvclient` (lib.rs:230-239). -/
def KvNamespaceClient.from_kvclient (kvclient : KvClient)
    (namespace_id : String) : KvNamespaceClient :=
  { account_id := kvclient.account_id
    api_key := kvclient.api_key
    namespace_id := namespace_id
    url := kvclient.url ++ "/" ++ namespace_id
    header_map := kvclient.header_map }

/-- Request issued by `list_namespaces` (lib.rs:75-80). -/
def list_namespaces_request (self : KvClient) : HttpRequest :=
  { method := "GET", url := self.url, body := none }

/-- The element loop of `list_namespaces` (lib.rs:96-100):
`namespace["id"].as_str().unwrap()` and `namespace["title"].as_str().unwrap()`.
Indexing a missing key yields JSON null, so a missing or non-string `id` or
`title` makes the `unwrap` panic, modelled as `KvError.panicked` with the Rust
panic message. -/
def parse_namespace_elems : List Json → Except KvError (List KvNamespace)
  | [] => Except.ok []
  | ns :: rest =>
    match (ns.index "id").asStr with
    | none => Except.error (KvError.panicked "called Option::unwrap() on a None value")
    | some id =>
      match (ns.index "title").asStr with
      | none => Except.error (KvError.panicked "called Option::unwrap() on a None value")
      | some title =>
        match parse_namespace_elems rest with
        | Except.error e => Except.error e
        | Except.ok tail => Except.ok ({ id := id, title := title } :: tail)

/-- Response handling of `list_namespaces` (lib.rs:82-113). -/
def list_namespaces_response (resp : HttpResponse) :
    Except KvError (List KvNamespace) :=
  match respToJson resp with
  | Except.error e => Except.error e
  | Except.ok resp_json =>
    match check_success resp_json with
    | Except.error e => Except.error e
    | Except.ok ok =>
      if ok = false then
        Except.error (KvError.remoteRejection resp_json.toString)
      else
        match resp_json.get "result" with
        | some result =>
          match result.asArray with
          | some namespaces => parse_namespace_elems namespaces
          | none => Except.error (KvError.protocol
              "The 'results' field cannot be converted to an array.")
        | none => Except.error (KvError.protocol
            "The returned JSON does not contain the 'result' field.")

/-- Request issued by `create_namespace` (lib.rs:119-128). -/
def create_namespace_request (self : KvClient) (title : String) : HttpRequest :=
  { method := "POST", url := self.url
    body := some (Json.obj [("title", Json.str title)]) }

/-- Response handling of `create_namespace` (lib.rs:130-188).  The error
message for a missing `title` reproduces the source's missing space
("in the'result' field"). -/
def create_namespace_response (resp : HttpResponse) :
    Except KvError KvNamespace :=
  match respToJson resp with
  | Except.error e => Except.error e
  | Except.ok resp_json =>
    match check_success resp_json with
    | Except.error e => Except.error e
    | Except.ok ok =>
      if ok = false then
        Except.error (KvError.remoteRejection resp_json.toString)
      else
        match resp_json.get "result" with
        | some result =>
          match result.get "id" with
          | some id =>
            match id.asStr with
            | some id_s =>
              match result.get "title" with
              | some title =>
                match title.asStr with
                | some title_s => Except.ok { id := id_s, title := title_s }
                | none => Except.error (KvError.protocol
                    "The 'title' field cannot be converted to a string.")
              | none => Except.error (KvError.protocol
                  "The 'title' field cannot be found in the'result' field.")
            | none => Except.error (KvError.protocol
                "The 'id' field cannot be converted to a string.")
          | none => Except.error (KvError.protocol
              "The 'id' field cannot be found in the 'result' field.")
        | none => Except.error (KvError.protocol
            "The returned JSON does not contain the 'result' field.")

/-- Request issued by `delete_namespace` (lib.rs:242-247). -/
def delete_namespace_request (self : KvNamespaceClient) : HttpRequest :=
  { method := "DELETE", url := self.url, body := none }

/-- Response handling of `delete_namespace` (lib.rs:249-258). -/
def delete_namespace_response (resp : HttpResponse) : Except KvError Unit :=
  match respToJson resp with
  | Except.error e => Except.error e
  | Except.ok resp_json =>
    match check_success resp_json with
    | Except.error e => Except.error e
    | Except.ok ok =>
      if ok = false then
        Except.error (KvError.remoteRejection resp_json.toString)
      else
        Except.ok ()

/-- Request issued by `rename_namespace` (lib.rs:265-275). -/
def rename_namespace_request (self : KvNamespaceClient) (new_title : String) :
    HttpRequest :=
  { method := "PUT", url := self.url
    body := some (Json.obj [("title", Json.str new_title)]) }

/-- Response handling of `rename_namespace` (lib.rs:277-287). -/
def rename_namespace_response (resp : HttpResponse) : Except KvError Unit :=
  match respToJson resp with
  | Except.error e => Except.error e
  | Except.ok resp_json =>
    match check_success resp_json with
    | Except.error e => Except.error e
    | Except.ok ok =>
      if ok = false then
        Except.error (KvError.remoteRejection resp_json.toString)
      else
        Except.ok ()

/-- Request issued by `write` (lib.rs:289-300): `PUT {url}/bulk` with the
single payload wrapped in a one-element vector. -/
def write_request (self : KvNamespaceClient) (payload : KvRequest) :
    HttpRequest :=
  { method := "PUT", url := self.url ++ "/bulk"
    body := some (Json.arr [payload.toJson]) }

/-- Response handling of `write` (lib.rs:302-311). -/
def write_response (resp : HttpResponse) : Except KvError Unit :=
  match respToJson resp with
  | Except.error e => Except.error e
  | Except.ok resp_json =>
    match check_success resp_json with
    | Except.error e => Except.error e
    | Except.ok ok =>
      if ok = false then
        Except.error (KvError.remoteRejection resp_json.toString)
      else
        Except.ok ()

/-- Request issued by `write_multiple` (lib.rs:314-325): `PUT {url}/bulk`
with the full ordered payload vector. -/
def write_multiple_request (self : KvNamespaceClient)
    (payload : List KvRequest) : HttpRequest :=
  { method := "PUT", url := self.url ++ "/bulk"
    body := some (Json.arr (payload.map KvRequest.toJson)) }

/-- Response handling of `write_multiple` (lib.rs:327-337). -/
def write_multiple_response (resp : HttpResponse) : Except KvError Unit :=
  match respToJson resp with
  | Except.error e => Except.error e
  | Except.ok resp_json =>
    match check_success resp_json with
    | Except.error e => Except.error e
    | Except.ok ok =>
      if ok = false then
        Except.error (KvError.remoteRejection resp_json.toString)
      else
        Except.ok ()

/-- Request issued by `delete` (lib.rs:340-350). -/
def delete_request (self : KvNamespaceClient) (key : String) : HttpRequest :=
  { method := "POST", url := self.url ++ "/bulk/delete"
    body := some (Json.arr [Json.str key]) }

/-- Response handling of `delete` (lib.rs:352-362). -/
def delete_response (resp : HttpResponse) : Except KvError Unit :=
  match respToJson resp with
  | Except.error e => Except.error e
  | Except.ok resp_json =>
    match check_success resp_json with
    | Except.error e => Except.error e
    | Except.ok ok =>
      if ok = false then
        Except.error (KvError.remoteRejection resp_json.toString)
      else
        Except.ok ()

/-- Request issued by `delete_multiple` (lib.rs:365-375). -/
def delete_multiple_request (self : KvNamespaceClient) (keys : List String) :
    HttpRequest :=
  { method := "POST", url := self.url ++ "/bulk/delete"
    body := some (Json.arr (keys.map Json.str)) }

/-- Response handling of `delete_multiple` (lib.rs:377-387). -/
def delete_multiple_response (resp : HttpResponse) : Except KvError Unit :=
  match respToJson resp with
  | Except.error e => Except.error e
  | Except.ok resp_json =>
    match check_success resp_json with
    | Except.error e => Except.error e
    | Except.ok ok =>
      if ok = false then
        Except.error (KvError.remoteRejection resp_json.toString)
      else
        Except.ok ()

/-- Request issued by one iteration of `list_all_keys` (lib.rs:391-401):
`GET {url}/keys?cursor={cursor}`. -/
def list_keys_request (self : KvNamespaceClient) (cursor : String) :
    HttpRequest :=
  { method := "GET", url := self.url ++ "/keys" ++ "?cursor=" ++ cursor
    body := none }

/-- The per-element loop of `list_all_keys` (lib.rs:423-440): each element
must carry a string `name`; both the missing-field and the wrong-type case
use the message "No name found in response.". -/
def extract_names : List Json → Except KvError (List String)
  | [] => Except.ok []
  | result :: rest =>
    match result.get "name" with
    | some name =>
      match name.asStr with
      | some name_s =>
        match extract_names rest with
        | Except.error e => Except.error e
        | Except.ok tail => Except.ok (name_s :: tail)
      | none => Except.error (KvError.protocol "No name found in response.")
    | none => Except.error (KvError.protocol "No name found in response.")

/-- The `result_info` extraction of `list_all_keys` (lib.rs:442-480): a string
`cursor` and a u64 `count` are both required (the count is read but unused);
missing and wrong-typed cases share one message per field. -/
def extract_result_info (resp_json : Json) : Except KvError (String × Nat) :=
  match resp_json.get "result_info" with
  | some result_info =>
    match result_info.get "cursor" with
    | some cursor =>
      match cursor.asStr with
      | some cursor_s =>
        match result_info.get "count" with
        | some count =>
          match count.asU64 with
          | some count_n => Except.ok (cursor_s, count_n)
          | none => Except.error (KvError.protocol "No count found in response.")
        | none => Except.error (KvError.protocol "No count found in response.")
      | none => Except.error (KvError.protocol "No cursor found in response.")
    | none => Except.error (KvError.protocol "No cursor found in response.")
  | none => Except.error (KvError.protocol "No result_info found in response.")

/-- One iteration of the `list_all_keys` loop body on a received response
(lib.rs:405-480): envelope check, `result` must be an array, every element
must carry a string `name`, then cursor and count are extracted.  Returns the
page's names together with the returned cursor. -/
def list_keys_page (resp : HttpResponse) :
    Except KvError (List String × String) :=
  match respToJson resp with
  | Except.error e => Except.error e
  | Except.ok resp_json =>
    match check_success resp_json with
    | Except.error e => Except.error e
    | Except.ok ok =>
      if ok = false then
        Except.error (KvError.remoteRejection resp_json.toString)
      else
        match resp_json.get "result" with
        | some result =>
          match result.asArray with
          | some result_arr =>
            match extract_names result_arr with
            | Except.error e => Except.error e
            | Except.ok names =>
              match extract_result_info resp_json with
              | Except.error e => Except.error e
              | Except.ok info => Except.ok (names, info.fst)
          | none => Except.error (KvError.protocol "No result found in response.")
        | none => Except.error (KvError.protocol "No result found in response.")

/-- Result of running the `list_all_keys` loop against a finite server trace:
either the loop returned, or it errored, or it consumed the whole trace and
still wanted another page (the loop itself has no bound; `pending` marks a
trace too short to make it terminate). -/
inductive ListKeysOutcome where
  | ok : List String → ListKeysOutcome
  | err : KvError → ListKeysOutcome
  | pending : ListKeysOutcome
deriving Repr, DecidableEq

/-- The `loop` of `list_all_keys` (lib.rs:394-489) run against a server trace:
`pages` are the responses the server gives to successive requests, `cursor` is
the cursor parameter of the next request, `keys` is the accumulator.  Returns
the outcome together with the cursor parameters of all requests issued, in
order (when the trace runs out, the request the loop was about to issue is
recorded and the outcome is `pending`). -/
def list_all_keys_go : List HttpResponse → String → List String →
    ListKeysOutcome × List String
  | [], cursor, _keys => (ListKeysOutcome.pending, [cursor])
  | page :: rest, cursor, keys =>
    match list_keys_page page with
    | Except.error e => (ListKeysOutcome.err e, [cursor])
    | Except.ok (names, cursor_tmp) =>
      if cursor_tmp.isEmpty then
        (ListKeysOutcome.ok (keys ++ names), [cursor])
      else
        let next := list_all_keys_go rest cursor_tmp (keys ++ names)
        (next.fst, cursor :: next.snd)

/-- Model of `list_all_keys` (lib.rs:390-491) against a server trace: the loop starts
with an empty accumulator and the empty cursor. -/
def list_all_keys (pages : List HttpResponse) :
    ListKeysOutcome × List String :=
  list_all_keys_go pages "" []

/-- Request issued by `read_metadata` (lib.rs:493-501). -/
def read_metadata_request (self : KvNamespaceClient) (key : String) :
    HttpRequest :=
  { method := "GET", url := self.url ++ "/metadata/" ++ key, body := none }

/-- Response handling of `read_metadata` (lib.rs:503-518): envelope check,
then the raw `result` value is returned unmodified. -/
def read_metadata_response (resp : HttpResponse) : Except KvError Json :=
  match respToJson resp with
  | Except.error e => Except.error e
  | Except.ok resp_json =>
    match check_success resp_json with
    | Except.error e => Except.error e
    | Except.ok ok =>
      if ok = false then
        Except.error (KvError.remoteRejection resp_json.toString)
      else
        match resp_json.get "result" with
        | some result => Except.ok result
        | none => Except.error (KvError.protocol "No result found in response.")

/-- Request issued by `get` (lib.rs:521-529). -/
def get_request (self : KvNamespaceClient) (key : String) : HttpRequest :=
  { method := "GET", url := self.url ++ "/values/" ++ key, body := none }

/-- Response handling of `get` (lib.rs:531-543): on status exactly 404 the
body is parsed as JSON (failing with a transport error when it is not JSON)
and returned stringified inside a not-found error; on every other status the
raw body text is returned, with no JSON parsing and no envelope check. -/
def get_response (resp : HttpResponse) : Except KvError String :=
  if resp.status = 404 then
    match respToJson resp with
    | Except.error e => Except.error e
    | Except.ok resp_json => Except.error (KvError.notFound resp_json.toString)
  else
    Except.ok resp.bodyText

/-! ## Helper predicates and lemmas -/

/-- The condition under which `check_success` rejects the envelope: the
`success` field is absent, or present with a non-boolean value. -/
def successFieldBad (j : Json) : Bool :=
  match j.get "success" with
  | some s => s.asBool.isNone
  | none => true

/-- The exact protocol error `check_success` produces on a bad `success`
field: one message for the non-boolean case, one for the missing case. -/
def successBadError (j : Json) : KvError :=
  match j.get "success" with
  | some _ => KvError.protocol "The returned 'success' field is not a boolean value."
  | none => KvError.protocol "The returned JSON does not contain the 'success' field."

theorem successBadError_is_protocol (j : Json) :
    ∃ msg, successBadError j = KvError.protocol msg := by
  unfold successBadError
  cases j.get "success" <;> exact ⟨_, rfl⟩

theorem check_success_bad (j : Json) (h : successFieldBad j = true) :
    check_success j = Except.error (successBadError j) := by
  unfold successFieldBad at h
  unfold check_success successBadError
  cases hj : j.get "success" with
  | none => rfl
  | some s =>
    rw [hj] at h
    simp only [Option.isNone_iff_eq_none] at h
    cases hs : s.asBool with
    | none => simp only []; rw [hs]
    | some b => rw [hs] at h; simp at h

theorem check_success_false (j : Json)
    (h : j.get "success" = some (Json.bool false)) :
    check_success j = Except.ok false := by
  unfold check_success
  rw [h]
  rfl

/-- C1: For every operation that parses the response envelope (all operations
except `get`) — namely `list_namespaces`, `create_namespace`,
`delete_namespace`, `rename_namespace`, `write`, `write_multiple`, `delete`,
`delete_multiple`, `read_metadata` and each page of `list_all_keys` — if the
parsed JSON body is missing the `success` field, or has a non-boolean
`success`, the operation fails with exactly the protocol error produced by
`check_success` (`successBadError j`, a `KvError.protocol`), and no extraction
of the `result` field is attempted: the returned error is the success-check
error for every body `j`, whatever its `result` field holds or lacks. -/
theorem claim1_bad_success_yields_protocol_error
    (resp : HttpResponse) (j : Json)
    (hbody : resp.bodyJson = some j) (hbad : successFieldBad j = true) :
    (∃ msg, successBadError j = KvError.protocol msg) ∧
    list_namespaces_response resp = Except.error (successBadError j) ∧
    create_namespace_response resp = Except.error (successBadError j) ∧
    delete_namespace_response resp = Except.error (successBadError j) ∧
    rename_namespace_response resp = Except.error (successBadError j) ∧
    write_response resp = Except.error (successBadError j) ∧
    write_multiple_response resp = Except.error (successBadError j) ∧
    delete_response resp = Except.error (successBadError j) ∧
    delete_multiple_response resp = Except.error (successBadError j) ∧
    read_metadata_response resp = Except.error (successBadError j) ∧
    list_keys_page resp = Except.error (successBadError j) ∧
    list_all_keys [resp] =
      (ListKeysOutcome.err (successBadError j), [""]) := by
  have hcs := check_success_bad j hbad
  refine ⟨successBadError_is_protocol j, ?_, ?_, ?_, ?_, ?_, ?_, ?_, ?_, ?_, ?_, ?_⟩
  · unfold list_namespaces_response respToJson
    rw [hbody]; simp only [hcs]
  · unfold create_namespace_response respToJson
    rw [hbody]; simp only [hcs]
  · unfold delete_namespace_response respToJson
    rw [hbody]; simp only [hcs]
  · unfold rename_namespace_response respToJson
    rw [hbody]; simp only [hcs]
  · unfold write_response respToJson
    rw [hbody]; simp only [hcs]
  · unfold write_multiple_response respToJson
    rw [hbody]; simp only [hcs]
  · unfold delete_response respToJson
    rw [hbody]; simp only [hcs]
  · unfold delete_multiple_response respToJson
    rw [hbody]; simp only [hcs]
  · unfold read_metadata_response respToJson
    rw [hbody]; simp only [hcs]
  · unfold list_keys_page respToJson
    rw [hbody]; simp only [hcs]
  · unfold list_all_keys list_all_keys_go list_keys_page respToJson
    rw [hbody]; simp only [hcs]

/-- Witness for C1 at the concrete envelope with a string-valued `success`
field: every envelope-parsing operation returns the non-boolean-success
protocol error. -/
theorem claim1_witness :
    delete_namespace_response
      { status := 200, bodyText := "", bodyJson :=
          some (Json.obj [("success", Json.str "yes")]) } =
      Except.error (KvError.protocol
        "The returned 'success' field is not a boolean value.") ∧
    list_namespaces_response
      { status := 200, bodyText := "", bodyJson :=
          some (Json.obj [("success", Json.str "yes")]) } =
      Except.error (KvError.protocol
        "The returned 'success' field is not a boolean value.") :=
  have h := claim1_bad_success_yields_protocol_error
    { status := 200, bodyText := "", bodyJson :=
        some (Json.obj [("success", Json.str "yes")]) }
    (Json.obj [("success", Json.str "yes")]) rfl (by decide)
  ⟨h.2.2.2.1, h.2.1⟩

/-- C5: For every operation that parses the response envelope, a well-formed
envelope whose `success` field is the boolean `false` makes the operation fail
with a remote-rejection error whose detail is the stringified full envelope
(`j.toString`).  The HTTP status is universally quantified and never inspected
by these handlers, so a non-2xx status alone does not short-circuit
processing. -/
theorem claim5_success_false_yields_remote_rejection
    (resp : HttpResponse) (j : Json)
    (hbody : resp.bodyJson = some j)
    (hfalse : j.get "success" = some (Json.bool false)) :
    list_namespaces_response resp =
      Except.error (KvError.remoteRejection j.toString) ∧
    create_namespace_response resp =
      Except.error (KvError.remoteRejection j.toString) ∧
    delete_namespace_response resp =
      Except.error (KvError.remoteRejection j.toString) ∧
    rename_namespace_response resp =
      Except.error (KvError.remoteRejection j.toString) ∧
    write_response resp =
      Except.error (KvError.remoteRejection j.toString) ∧
    write_multiple_response resp =
      Except.error (KvError.remoteRejection j.toString) ∧
    delete_response resp =
      Except.error (KvError.remoteRejection j.toString) ∧
    delete_multiple_response resp =
      Except.error (KvError.remoteRejection j.toString) ∧
    read_metadata_response resp =
      Except.error (KvError.remoteRejection j.toString) ∧
    list_keys_page resp =
      Except.error (KvError.remoteRejection j.toString) ∧
    list_all_keys [resp] =
      (ListKeysOutcome.err (KvError.remoteRejection j.toString), [""]) := by
  have hcs := check_success_false j hfalse
  refine ⟨?_, ?_, ?_, ?_, ?_, ?_, ?_, ?_, ?_, ?_, ?_⟩
  · unfold list_namespaces_response respToJson
    rw [hbody]; simp only [hcs]; rfl
  · unfold create_namespace_response respToJson
    rw [hbody]; simp only [hcs]; rfl
  · unfold delete_namespace_response respToJson
    rw [hbody]; simp only [hcs]; rfl
  · unfold rename_namespace_response respToJson
    rw [hbody]; simp only [hcs]; rfl
  · unfold write_response respToJson
    rw [hbody]; simp only [hcs]; rfl
  · unfold write_multiple_response respToJson
    rw [hbody]; simp only [hcs]; rfl
  · unfold delete_response respToJson
    rw [hbody]; simp only [hcs]; rfl
  · unfold delete_multiple_response respToJson
    rw [hbody]; simp only [hcs]; rfl
  · unfold read_metadata_response respToJson
    rw [hbody]; simp only [hcs]; rfl
  · unfold list_keys_page respToJson
    rw [hbody]; simp only [hcs]; rfl
  · unfold list_all_keys list_all_keys_go list_keys_page respToJson
    rw [hbody]; simp only [hcs]; rfl

/-- Witness for C5 at a failed envelope carried by an HTTP 500 response: the
handlers reject it with the stringified envelope, showing a non-2xx status
does not short-circuit envelope processing. -/
theorem claim5_witness :
    delete_namespace_response
      { status := 500, bodyText := "", bodyJson :=
          some (Json.obj [("success", Json.bool false), ("errors", Json.arr [])]) } =
      Except.error (KvError.remoteRejection
        "\x7b\"success\":false,\"errors\":[]\x7d") ∧
    write_response
      { status := 500, bodyText := "", bodyJson :=
          some (Json.obj [("success", Json.bool false), ("errors", Json.arr [])]) } =
      Except.error (KvError.remoteRejection
        "\x7b\"success\":false,\"errors\":[]\x7d") :=
  have h := claim5_success_false_yields_remote_rejection
    { status := 500, bodyText := "", bodyJson :=
        some (Json.obj [("success", Json.bool false), ("errors", Json.arr [])]) }
    (Json.obj [("success", Json.bool false), ("errors", Json.arr [])])
    rfl rfl
  ⟨h.2.2.1, h.2.2.2.2.1⟩

/-- An HTTP 200 response whose envelope is successful and whose `result`
array contains an element lacking the `id` field. -/
def missingIdResp : HttpResponse :=
  { status := 200, bodyText := "", bodyJson :=
      some (Json.obj
        [ ("success", Json.bool true)
        , ("result", Json.arr [Json.obj [("title", Json.str "t")]]) ]) }

/-- C2 (evaluation at the failing input): on a successful envelope whose
`result` array has an element without an `id`, `list_namespaces` does not
fail with a protocol error as the specification states — the
`namespace["id"].as_str().unwrap()` at lib.rs:97 panics (no partial list is
returned either way). -/
theorem claim2_missing_id_panics_not_protocol_error :
    list_namespaces_response missingIdResp =
      Except.error (KvError.panicked "called Option::unwrap() on a None value") ∧
    ∀ msg, list_namespaces_response missingIdResp ≠
      Except.error (KvError.protocol msg) := by
  have h1 : list_namespaces_response missingIdResp =
      Except.error (KvError.panicked "called Option::unwrap() on a None value") := rfl
  refine ⟨h1, ?_⟩
  intro msg h
  rw [h1] at h
  exact KvError.noConfusion (Except.error.inj h)

/-! ## Pagination machinery for `list_all_keys` -/

/-- A canonical well-formed key-listing page body: successful envelope, a
`result` array of objects each holding a string `name`, and a `result_info`
with the given `cursor` and the page's element count. -/
def pageJson (names : List String) (cursor : String) : Json :=
  Json.obj
    [ ("success", Json.bool true)
    , ("result", Json.arr (names.map fun n => Json.obj [("name", Json.str n)]))
    , ("result_info", Json.obj
        [ ("cursor", Json.str cursor)
        , ("count", Json.num names.length) ]) ]

/-- A canonical well-formed key-listing page response. -/
def mkKeyPage (names : List String) (cursor : String) : HttpResponse :=
  { status := 200, bodyText := "", bodyJson := some (pageJson names cursor) }

/-- The server trace built from page descriptions `(names, cursor)`. -/
def pagesOf (specs : List (List String × String)) : List HttpResponse :=
  specs.map fun p => mkKeyPage p.fst p.snd

theorem extract_names_map (names : List String) :
    extract_names (names.map fun n => Json.obj [("name", Json.str n)]) =
      Except.ok names := by
  induction names with
  | nil => rfl
  | cons n rest ih =>
    have h : extract_names ((n :: rest).map fun n => Json.obj [("name", Json.str n)]) =
        match extract_names (rest.map fun n => Json.obj [("name", Json.str n)]) with
        | Except.error e => Except.error e
        | Except.ok tail => Except.ok (n :: tail) := rfl
    rw [h, ih]

theorem asU64_natCast (n : Nat) : (Json.num (n : Int)).asU64 = some n := by
  have h : (Json.num (n : Int)).asU64 =
      if 0 ≤ (n : Int) then some (n : Int).toNat else none := rfl
  rw [h, if_pos (Int.natCast_nonneg n), Int.toNat_natCast]

theorem extract_result_info_mk (names : List String) (cursor : String) :
    extract_result_info (pageJson names cursor) =
      Except.ok (cursor, names.length) := by
  have h : extract_result_info (pageJson names cursor) =
      match (Json.num (names.length : Int)).asU64 with
      | some count_n => Except.ok (cursor, count_n)
      | none => Except.error (KvError.protocol "No count found in response.") := rfl
  rw [h, asU64_natCast]

theorem list_keys_page_mk (names : List String) (cursor : String) :
    list_keys_page (mkKeyPage names cursor) = Except.ok (names, cursor) := by
  have h : list_keys_page (mkKeyPage names cursor) =
      match extract_names (names.map fun n => Json.obj [("name", Json.str n)]) with
      | Except.error e => Except.error e
      | Except.ok ns =>
        match extract_result_info (pageJson names cursor) with
        | Except.error e => Except.error e
        | Except.ok info => Except.ok (ns, info.fst) := rfl
  rw [h, extract_names_map, extract_result_info_mk]

theorem list_all_keys_go_cons (page : HttpResponse) (rest : List HttpResponse)
    (cursor : String) (keys : List String) :
    list_all_keys_go (page :: rest) cursor keys =
      match list_keys_page page with
      | Except.error e => (ListKeysOutcome.err e, [cursor])
      | Except.ok (names, cursor_tmp) =>
        if cursor_tmp.isEmpty then
          (ListKeysOutcome.ok (keys ++ names), [cursor])
        else
          ((list_all_keys_go rest cursor_tmp (keys ++ names)).fst,
           cursor :: (list_all_keys_go rest cursor_tmp (keys ++ names)).snd) := rfl

/-- Well-formed terminating trace: at least one page, every page before the
last returns a non-empty cursor, the last returns the empty cursor. -/
def goodTrace : List (List String × String) → Bool
  | [] => false
  | [(_, c)] => c.isEmpty
  | (_, c) :: rest => !c.isEmpty && goodTrace rest

theorem list_all_keys_go_good :
    ∀ specs : List (List String × String), goodTrace specs = true →
    ∀ (cursor : String) (acc : List String),
    list_all_keys_go (pagesOf specs) cursor acc =
      (ListKeysOutcome.ok (acc ++ (specs.map Prod.fst).flatten),
       cursor :: specs.dropLast.map Prod.snd) := by
  intro specs
  induction specs with
  | nil => intro h; simp [goodTrace] at h
  | cons p tail ih =>
    obtain ⟨ns, c⟩ := p
    cases tail with
    | nil =>
      intro h cursor acc
      have hc : c.isEmpty = true := h
      have hp : pagesOf [(ns, c)] = [mkKeyPage ns c] := rfl
      rw [hp, list_all_keys_go_cons, list_keys_page_mk]
      simp [hc]
    | cons q tail2 =>
      intro h cursor acc
      have h' : (!c.isEmpty && goodTrace (q :: tail2)) = true := h
      rw [Bool.and_eq_true, Bool.not_eq_true'] at h'
      have hp : pagesOf ((ns, c) :: q :: tail2) =
          mkKeyPage ns c :: pagesOf (q :: tail2) := rfl
      rw [hp, list_all_keys_go_cons, list_keys_page_mk]
      simp only [h'.1, Bool.false_eq_true, if_false]
      rw [ih h'.2 c (acc ++ ns)]
      simp [List.append_assoc]

/-- C3: For every well-formed terminating sequence of key-listing pages,
`list_all_keys` returns the concatenation of all `name` values in
server-returned order across pages, and the cursor parameters of the issued
requests are the empty initial cursor followed by each non-final page's
returned cursor (one request per page, each non-final cursor fed into the
next request).  The witness instantiates the spec's two-page example
`[(names ["a","b"], cursor "X"), (names ["c"], cursor "")]`: result
`["a","b","c"]`, exactly two requests, the second carrying cursor `"X"`. -/
theorem claim3_list_all_keys_concatenates_pages
    (specs : List (List String × String)) (h : goodTrace specs = true) :
    list_all_keys (pagesOf specs) =
      (ListKeysOutcome.ok (specs.map Prod.fst).flatten,
       "" :: specs.dropLast.map Prod.snd) := by
  have hgo := list_all_keys_go_good specs h "" []
  simpa [list_all_keys] using hgo

/-- Witness for C3 at the spec's simulated server: two pages
`[{names:["a","b"], cursor:"X"}, {names:["c"], cursor:""}]` yield
`["a","b","c"]` in order, with exactly two requests whose cursor parameters
are `""` then `"X"`. -/
theorem claim3_witness :
    goodTrace [(["a", "b"], "X"), (["c"], "")] = true ∧
    list_all_keys (pagesOf [(["a", "b"], "X"), (["c"], "")]) =
      (ListKeysOutcome.ok ["a", "b", "c"], ["", "X"]) :=
  ⟨rfl,
   claim3_list_all_keys_concatenates_pages [(["a", "b"], "X"), (["c"], "")] rfl⟩

/-- All pages in the description return a non-empty cursor. -/
def allCursorsNonempty (specs : List (List String × String)) : Bool :=
  specs.all fun p => !p.snd.isEmpty

theorem list_all_keys_go_nonempty :
    ∀ specs : List (List String × String), allCursorsNonempty specs = true →
    ∀ (cursor : String) (acc : List String),
    list_all_keys_go (pagesOf specs) cursor acc =
      (ListKeysOutcome.pending, cursor :: specs.map Prod.snd) := by
  intro specs
  induction specs with
  | nil => intro _ cursor acc; rfl
  | cons p tail ih =>
    obtain ⟨ns, c⟩ := p
    intro h cursor acc
    have h' : (!c.isEmpty && allCursorsNonempty tail) = true := by
      simpa [allCursorsNonempty, List.all_cons] using h
    rw [Bool.and_eq_true, Bool.not_eq_true'] at h'
    have hp : pagesOf ((ns, c) :: tail) = mkKeyPage ns c :: pagesOf tail := rfl
    rw [hp, list_all_keys_go_cons, list_keys_page_mk]
    simp only [h'.1, Bool.false_eq_true, if_false]
    rw [ih h'.2 c (acc ++ ns)]
    simp

theorem list_all_keys_go_stops :
    ∀ specs : List (List String × String), allCursorsNonempty specs = true →
    ∀ (final_names : List String) (rest : List HttpResponse)
      (cursor : String) (acc : List String),
    list_all_keys_go (pagesOf specs ++ (mkKeyPage final_names "" :: rest))
        cursor acc =
      (ListKeysOutcome.ok ((acc ++ (specs.map Prod.fst).flatten) ++ final_names),
       cursor :: specs.map Prod.snd) := by
  intro specs
  induction specs with
  | nil =>
    intro _ fn rest cursor acc
    have hp : pagesOf [] ++ (mkKeyPage fn "" :: rest) =
        mkKeyPage fn "" :: rest := rfl
    have he : "".isEmpty = true := rfl
    rw [hp, list_all_keys_go_cons, list_keys_page_mk]
    simp [he]
  | cons p tail ih =>
    obtain ⟨ns, c⟩ := p
    intro h fn rest cursor acc
    have h' : (!c.isEmpty && allCursorsNonempty tail) = true := by
      simpa [allCursorsNonempty, List.all_cons] using h
    rw [Bool.and_eq_true, Bool.not_eq_true'] at h'
    have hp : pagesOf ((ns, c) :: tail) ++ (mkKeyPage fn "" :: rest) =
        mkKeyPage ns c :: (pagesOf tail ++ (mkKeyPage fn "" :: rest)) := rfl
    rw [hp, list_all_keys_go_cons, list_keys_page_mk]
    simp only [h'.1, Bool.false_eq_true, if_false]
    rw [ih h'.2 fn rest c (acc ++ ns)]
    simp [List.append_assoc]

/-- C9: The pagination loop of `list_all_keys` terminates exactly when a
page's `result_info.cursor` is empty, and otherwise continues with that
cursor as the next request's parameter.  First conjunct: whenever some page
returns an empty cursor, the call terminates right there — one request per
page up to and including that page (`specs.length + 1` requests), and any
further responses `rest` the server could give are never requested.  Second
conjunct: with no iteration bound, a server that never returns an empty
cursor keeps the loop running — after consuming any finite number of
non-empty-cursor pages the loop is still `pending`, having issued one request
per page plus the next one it is about to send. -/
theorem claim9_termination_policy :
    (∀ (specs : List (List String × String)) (final_names : List String)
       (rest : List HttpResponse), allCursorsNonempty specs = true →
       list_all_keys (pagesOf specs ++ (mkKeyPage final_names "" :: rest)) =
         (ListKeysOutcome.ok ((specs.map Prod.fst).flatten ++ final_names),
          "" :: specs.map Prod.snd)) ∧
    (∀ specs : List (List String × String), allCursorsNonempty specs = true →
       list_all_keys (pagesOf specs) =
         (ListKeysOutcome.pending, "" :: specs.map Prod.snd)) := by
  constructor
  · intro specs fn rest h
    have hgo := list_all_keys_go_stops specs h fn rest "" []
    simpa [list_all_keys] using hgo
  · intro specs h
    have hgo := list_all_keys_go_nonempty specs h "" []
    simpa [list_all_keys] using hgo

/-- Witness for C9: a one-page non-empty-cursor prefix followed by an
empty-cursor page terminates after exactly two requests (ignoring any
trailing trace); the same prefix alone leaves the loop pending. -/
theorem claim9_witness :
    allCursorsNonempty [(["a"], "X")] = true ∧
    list_all_keys (pagesOf [(["a"], "X")] ++ (mkKeyPage ["b"] "" :: [])) =
      (ListKeysOutcome.ok ["a", "b"], ["", "X"]) ∧
    list_all_keys (pagesOf [(["a"], "X")]) =
      (ListKeysOutcome.pending, ["", "X"]) :=
  ⟨rfl, claim9_termination_policy.1 [(["a"], "X")] ["b"] [] rfl,
   claim9_termination_policy.2 [(["a"], "X")] rfl⟩

/-- C4: `get` treats HTTP 404 specially — the body is parsed as JSON and the
call fails with a not-found error carrying that parsed body (stringified);
for every other status, whatever the status code or body shape (even
non-JSON text), the raw body text is returned verbatim, and the envelope
success-check is never applied on this path (`get_response` never invokes
`check_success`). -/
theorem claim4_get_404_and_raw_text (resp : HttpResponse) :
    (resp.status = 404 → ∀ j : Json, resp.bodyJson = some j →
      get_response resp = Except.error (KvError.notFound j.toString)) ∧
    (resp.status ≠ 404 → get_response resp = Except.ok resp.bodyText) := by
  constructor
  · intro h404 j hbody
    unfold get_response respToJson
    rw [if_pos h404, hbody]
  · intro hne
    unfold get_response
    rw [if_neg hne]

/-- Witness for C4: a 404 response with a JSON body yields the not-found
error carrying the stringified body; a 500 response with a non-JSON body
yields that body text verbatim. -/
theorem claim4_witness :
    get_response
      { status := 404, bodyText := "", bodyJson :=
          some (Json.obj [("success", Json.bool false)]) } =
      Except.error (KvError.notFound "\x7b\"success\":false\x7d") ∧
    get_response
      { status := 500, bodyText := "plain text, not JSON", bodyJson := none } =
      Except.ok "plain text, not JSON" :=
  ⟨(claim4_get_404_and_raw_text _).1 rfl
     (Json.obj [("success", Json.bool false)]) rfl,
   (claim4_get_404_and_raw_text _).2 (by decide)⟩

/-- C10: a 404 response whose body is not valid JSON makes `get` fail at the
JSON-parse step with the transport error, not with a not-found error; and
conversely the not-found error is reachable only for status-404 responses
whose body parses as JSON (and it then carries exactly the stringified parsed
body). -/
theorem claim10_404_nonjson_is_transport_error (resp : HttpResponse) :
    (resp.status = 404 → resp.bodyJson = none →
      get_response resp =
        Except.error (KvError.transport "error decoding response body")) ∧
    (∀ d : String, get_response resp = Except.error (KvError.notFound d) →
      resp.status = 404 ∧ ∃ j : Json, resp.bodyJson = some j ∧ d = j.toString) := by
  constructor
  · intro h404 hnone
    unfold get_response respToJson
    rw [if_pos h404, hnone]
  · intro d hd
    unfold get_response respToJson at hd
    by_cases h404 : resp.status = 404
    · rw [if_pos h404] at hd
      refine ⟨h404, ?_⟩
      cases hbody : resp.bodyJson with
      | none => rw [hbody] at hd; simp at hd
      | some j =>
        rw [hbody] at hd
        simp only [] at hd
        refine ⟨j, rfl, ?_⟩
        have := Except.error.inj hd
        exact (KvError.notFound.inj this).symm
    · rw [if_neg h404] at hd
      exact Except.noConfusion hd

/-- Witness for C10: a 404 with non-JSON body gives the transport error; a
404 with a JSON body is in the not-found case, recovering status and body. -/
theorem claim10_witness :
    get_response { status := 404, bodyText := "oops", bodyJson := none } =
      Except.error (KvError.transport "error decoding response body") ∧
    ((404 : Nat) = 404 ∧ ∃ j : Json,
      (some (Json.null) : Option Json) = some j ∧ "null" = j.toString) :=
  ⟨(claim10_404_nonjson_is_transport_error _).1 rfl rfl,
   (claim10_404_nonjson_is_transport_error
      { status := 404, bodyText := "", bodyJson := some Json.null }).2 "null" rfl⟩

/-- C6: `write` builds exactly the request `write_multiple` builds for the
single-element list — same method `PUT`, same `{url}/bulk` endpoint, same
serialized body (the one-element array) — and the two operations classify
every response identically. -/
theorem claim6_write_refines_write_multiple
    (self : KvNamespaceClient) (r : KvRequest) :
    write_request self r = write_multiple_request self [r] ∧
    ∀ resp : HttpResponse, write_response resp = write_multiple_response resp := by
  constructor
  · rfl
  · intro resp; rfl

/-- C7 counterexample: on a request that already has `base64 = true`,
`enable_base64` returns a value equal to its receiver — zero fields differ,
not exactly one, refuting the claim's universally quantified "exactly one
field differs". -/
theorem claim7_counterexample :
    ((KvRequest.new "k" "v").enable_base64).enable_base64 =
      (KvRequest.new "k" "v").enable_base64 := rfl

/-- C7 (amended): each of the four modifiers sets its designated field to the
prescribed value (`base64 := true`, `expiration_ttl := some n`,
`expiration := some t`, `metadata := some m`) and copies every other field of
the receiver unchanged — so when the field already holds the target value the
result equals the receiver and no field differs; receivers are never mutated
(the operations are pure functions of the receiver); the constructor sets
`base64 = false` and `enable_base64` yields a value with `base64 = true`. -/
theorem claim7_amended_builders_set_one_field (r : KvRequest)
    (k v : String) (n t : Nat) (m : Json) :
    (r.enable_base64.base64 = true ∧
     r.enable_base64.key = r.key ∧ r.enable_base64.value = r.value ∧
     r.enable_base64.expiration = r.expiration ∧
     r.enable_base64.expiration_ttl = r.expiration_ttl ∧
     r.enable_base64.metadata = r.metadata) ∧
    ((r.ttl_sec n).expiration_ttl = some n ∧
     (r.ttl_sec n).key = r.key ∧ (r.ttl_sec n).value = r.value ∧
     (r.ttl_sec n).base64 = r.base64 ∧
     (r.ttl_sec n).expiration = r.expiration ∧
     (r.ttl_sec n).metadata = r.metadata) ∧
    ((r.ttl_timestemp t).expiration = some t ∧
     (r.ttl_timestemp t).key = r.key ∧ (r.ttl_timestemp t).value = r.value ∧
     (r.ttl_timestemp t).base64 = r.base64 ∧
     (r.ttl_timestemp t).expiration_ttl = r.expiration_ttl ∧
     (r.ttl_timestemp t).metadata = r.metadata) ∧
    ((r.set_metadata m).metadata = some m ∧
     (r.set_metadata m).key = r.key ∧ (r.set_metadata m).value = r.value ∧
     (r.set_metadata m).base64 = r.base64 ∧
     (r.set_metadata m).expiration = r.expiration ∧
     (r.set_metadata m).expiration_ttl = r.expiration_ttl) ∧
    ((KvRequest.new k v).base64 = false ∧
     (KvRequest.new k v).enable_base64.base64 = true) :=
  ⟨⟨rfl, rfl, rfl, rfl, rfl, rfl⟩, ⟨rfl, rfl, rfl, rfl, rfl, rfl⟩,
   ⟨rfl, rfl, rfl, rfl, rfl, rfl⟩, ⟨rfl, rfl, rfl, rfl, rfl, rfl⟩, rfl, rfl⟩

/-- C8: every pair of distinct builder modifiers (with fixed arguments)
commutes — applying the two in either order yields equal values — and in
particular applying both TTL setters, in either order, leaves both
`expiration` and `expiration_ttl` set, with no mutual exclusion enforced. -/
theorem claim8_modifiers_commute (r : KvRequest) (n t : Nat) (m : Json) :
    (r.enable_base64.ttl_sec n = (r.ttl_sec n).enable_base64) ∧
    (r.enable_base64.ttl_timestemp t = (r.ttl_timestemp t).enable_base64) ∧
    (r.enable_base64.set_metadata m = (r.set_metadata m).enable_base64) ∧
    ((r.ttl_sec n).ttl_timestemp t = (r.ttl_timestemp t).ttl_sec n) ∧
    ((r.ttl_sec n).set_metadata m = (r.set_metadata m).ttl_sec n) ∧
    ((r.ttl_timestemp t).set_metadata m = (r.set_metadata m).ttl_timestemp t) ∧
    ((r.ttl_sec n).ttl_timestemp t).expiration = some t ∧
    ((r.ttl_sec n).ttl_timestemp t).expiration_ttl = some n ∧
    ((r.ttl_timestemp t).ttl_sec n).expiration = some t ∧
    ((r.ttl_timestemp t).ttl_sec n).expiration_ttl = some n :=
  ⟨rfl, rfl, rfl, rfl, rfl, rfl, rfl, rfl, rfl, rfl⟩
